import Mathlib

/-!
Shallow embedding of `revs_fixture.py` (class `REVS`): the input-reading
helpers and the three solve entry points (individual, centralized,
distributed).  External collaborators imported from the repository modules
`extract`, `lpsolver` and `drawing` (tariff/home/network loaders, the
numerical subproblem solvers, the result serializer, and numpy's seeded
sampler) are not part of the fixture; following the spec's "pluggable
subproblem solver" design they are modelled as an explicit record of
abstract functions (`Ext`) threaded through every method.  Observable
effects (solver invocations and file writes) are recorded in an explicit
trace so that call-count and I/O claims are statable.
-/

namespace REVSModel

/-- Home identifiers (Python uses hashable keys; the fixture only lists and
iterates them). -/
abbrev HomeId := Nat

/-- An hourly schedule (charging power, residual load, or SOC series). -/
abbrev Sched := List Rat

/-- Opaque per-home payload (baseline load plus EV parameters); the fixture
never inspects it, only passes it to the solvers. -/
abbrev HomeData := List Rat

/-- The `homes` mapping: a Python dict, embedded as an association list in
insertion order (Python dicts preserve insertion order, and the fixture
iterates `list(homes.keys())`). -/
abbrev Homes := List (HomeId × HomeData)

/-- Electricity tariff: an hourly price vector, opaque to the fixture. -/
abbrev Tariff := List Rat

/-- Distribution-network payload, opaque to the fixture. -/
abbrev Network := List Nat

/-- A result dictionary keyed by home (residual load, charging schedule, or
SOC trajectory), in insertion order. -/
abbrev Dict := List (HomeId × Sched)

/-- Observable effects of a solve entry point: each invocation of an external
solver (with the exact arguments passed) and each file write performed by the
fixture itself. -/
inductive Effect where
  | callResidence (tariff : Tariff) (home : HomeData) (dir : String)
  | callCentral (tariff : Tariff) (homes : Homes) (dist : Network)
      (dir : String) (vset vmin vmax : Rat)
  | callADMM (homes : Homes) (dist : Network) (tariff : Tariff)
      (dir : String) (kappa : Rat) (iter_max : Nat) (vset vlow vhigh : Rat)
  | fileWrite (path : String) (data : String)
  deriving Repr, DecidableEq

/-- True exactly on file-write effects. -/
def Effect.isWrite : Effect → Bool
  | .fileWrite _ _ => true
  | _ => false

/-- True exactly on per-home subproblem-solver invocations. -/
def Effect.isResidenceCall : Effect → Bool
  | .callResidence _ _ _ => true
  | _ => false

/-- True exactly on centralized-solver invocations. -/
def Effect.isCentralCall : Effect → Bool
  | .callCentral _ _ _ _ _ _ _ => true
  | _ => false

/-- External collaborators of the fixture, as abstract functions.
`GetTariff`, `GetHomeLoad`, `GetDistNet`, `GetCommunity`,
`get_homes_ev_param` and `combine_result` come from `extract`;
`solve_residence`, `solve_central` and `solve_ADMM` from `lpsolver`.
`sample` is modelled from the spec: `np.random.seed(seed)` followed by
`np.random.choice(com, n, replace=False)`, a seeded random sample without
replacement, taking the seed, the community list and the sample size.
`solve_residence` returns `(p_opt, s_opt, g_opt)` and is fallible
(modelled from the spec: it "fails (reports infeasible) if the charging
window cannot deliver the requested capacity"; a Python exception from it
propagates, embedded as `Option`).  `solve_central` returns
`(Pev, soc, Pres)`; `solve_ADMM` returns `(diff, Pres, Pev, soc)`. -/
structure Ext where
  GetTariff : String → String → Nat → Tariff
  GetHomeLoad : String → Nat → Nat → Homes
  GetDistNet : String → Nat → Network
  GetCommunity : String → Nat → List HomeId
  sample : Nat → List HomeId → Nat → List HomeId
  get_homes_ev_param : Homes → Network → List HomeId →
    Rat → Rat → Rat → Nat → Nat → Homes
  combine_result : Dict → Dict → Dict → Option (List HomeId) → String
  combine_result_diff : Dict → Dict → Dict → Option (List HomeId) → Rat → String
  solve_residence : Tariff → HomeData → String → Option (Sched × Sched × Sched)
  solve_central : Tariff → Homes → Network → String → Rat → Rat → Rat →
    Dict × Dict × Dict
  solve_ADMM : Homes → Network → Tariff → String → Rat → Nat →
    Rat → Rat → Rat → Rat × Dict × Dict × Dict

/-- Instance state of the `REVS` class after `__init__`: identifiers and the
derived output/Gurobi/figure directory strings. -/
structure REVS where
  netID : Nat
  regID : Nat
  com : Nat
  tariffID : String
  optim : String
  data_path : String
  out_dir : String
  grb_dir : String
  fig_dir : String
  deriving Repr, DecidableEq

/-- Constructor `REVS.__init__`: stores the identifiers (defaults are
supplied by `mkREVSDefaults` below) and derives
`out_dir = out_path/netID-comC/optim` and likewise `grb_dir`.  The
directory-creation side effects of the `out_dir`/`grb_dir`/`fig_dir`
property setters happen at construction time, not in the solve methods,
and are not recorded here. -/
def mkREVS (networkID regionID comunityID : Nat)
    (tariffID optimizer_mode : String)
    (data_path out_path grb_path fig_path : String) : REVS :=
  let sub := toString networkID ++ "-com" ++ toString comunityID ++ "/" ++
    optimizer_mode
  { netID := networkID
    regID := regionID
    com := comunityID
    tariffID := tariffID
    optim := optimizer_mode
    data_path := data_path
    out_dir := out_path ++ "/" ++ sub
    grb_dir := grb_path ++ "/" ++ sub
    fig_dir := fig_path }

/-- Keyword defaults of `REVS.__init__`: `networkID=121144`, `regionID=121`,
`comunityID=2`, `tariffID="DVP"`, `optimizer_mode="individual"`. -/
def mkREVSDefaults (data_path out_path grb_path fig_path : String) : REVS :=
  mkREVS 121144 121 2 "DVP" "individual" data_path out_path grb_path fig_path

/-- Python truthiness of an optional string argument: `not x` holds for
`None` and for the empty string. -/
def optStrFalsy : Option String → Bool
  | none => true
  | some s => s.isEmpty

/-- Python truthiness of an optional integer argument: `not x` holds for
`None` and for `0`. -/
def optNatFalsy : Option Nat → Bool
  | none => true
  | some n => n == 0

/-- Python truthiness of an optional list argument: `not x` holds for `None`
and for the empty list. -/
def optListFalsy : Option (List HomeId) → Bool
  | none => true
  | some l => l.isEmpty

/-- Method `REVS.read_tariff(self, tariffID=None, shift=6)`: when the
argument is falsy it is replaced by the constant `"DVP"` (not by
`self.tariffID`), then `GetTariff(self.data_path, tariffID, shift)` is
returned. -/
def REVS.read_tariff (ext : Ext) (self : REVS)
    (tariffID : Option String) (shift : Nat) : Tariff :=
  let tid := if optStrFalsy tariffID then "DVP" else tariffID.getD ""
  ext.GetTariff self.data_path tid shift

/-- Method `REVS.read_homes(self, regionID=None, shift=6)`: a falsy argument
falls back to `self.regID`, then `GetHomeLoad(self.data_path, regionID,
shift)` is returned. -/
def REVS.read_homes (ext : Ext) (self : REVS)
    (regionID : Option Nat) (shift : Nat) : Homes :=
  let rid := if optNatFalsy regionID then self.regID else regionID.getD 0
  ext.GetHomeLoad self.data_path rid shift

/-- Method `REVS.read_network(self, networkID=None)`: a falsy argument falls
back to `self.netID`, then `GetDistNet(self.data_path, networkID)` is
returned. -/
def REVS.read_network (ext : Ext) (self : REVS)
    (networkID : Option Nat) : Network :=
  let nid := if optNatFalsy networkID then self.netID else networkID.getD 0
  ext.GetDistNet self.data_path nid

/-- Method `REVS.read_community(self, networkID=None, com_index=2)`: a falsy
argument falls back to `self.netID`, then
`GetCommunity(f"{data_path}/{networkID}-com.txt", com_index)` is
returned. -/
def REVS.read_community (ext : Ext) (self : REVS)
    (networkID : Option Nat) (com_index : Nat) : List HomeId :=
  let nid := if optNatFalsy networkID then self.netID else networkID.getD 0
  ext.GetCommunity (self.data_path ++ "/" ++ toString nid ++ "-com.txt")
    com_index

/-! Exact model of IEEE-754 double-precision arithmetic, used for the two
floating-point expressions the fixture computes itself:
`int(adoption * 1e-2 * len(com))` in `read_inputs` and `rating * 1e-3`
passed to `get_homes_ev_param`.  Every finite double is a dyadic rational
`m * 2^e`; multiplication and int-to-double conversion round the exact
result to 53 significant bits, to nearest, ties to even.  Overflow and
subnormals are outside the value range these expressions can reach and are
not modelled. -/

/-- Bit length of a natural number (fuel-based structural recursion; 128
bits of fuel cover every intermediate value of the fixture's
computations). -/
def bitLen : Nat → Nat → Nat
  | 0, _ => 0
  | fuel + 1, n => if n = 0 then 0 else bitLen fuel (n / 2) + 1

/-- A non-negative dyadic rational `m * 2^e`: the exact value of a
non-negative finite IEEE-754 double. -/
structure Dyadic where
  m : Nat
  e : Int
  deriving Repr, DecidableEq

/-- Rounding of a non-negative dyadic to 53 significant bits, to nearest,
ties to even: the IEEE-754 rounding step after an exact operation. -/
def round53 (x : Dyadic) : Dyadic :=
  let len := bitLen 128 x.m
  if len ≤ 53 then x
  else
    let s := len - 53
    let q := x.m / 2 ^ s
    let r := x.m % 2 ^ s
    let h := 2 ^ (s - 1)
    let n := if r < h then q
      else if h < r then q + 1
      else if q % 2 = 0 then q else q + 1
    ⟨n, x.e + s⟩

/-- IEEE-754 double multiplication: round the exact product. -/
def fmul (x y : Dyadic) : Dyadic :=
  round53 ⟨x.m * y.m, x.e + y.e⟩

/-- Conversion of a Python non-negative int to a double: round the exact
value (exact below `2^53`). -/
def intToDouble (n : Nat) : Dyadic :=
  round53 ⟨n, 0⟩

/-- The double nearest to the fraction `a / b` (for positive `a`, `b`):
locate the binade `2^e ≤ a/b < 2^(e+1)`, scale to `[2^52, 2^53)` and round
to nearest, ties to even.  Used for the literals `1e-2` and `1e-3`. -/
def ratToDouble (a b : Nat) : Dyadic :=
  if a = 0 then ⟨0, 0⟩
  else
    let L := bitLen 128 a
    let M := bitLen 128 b
    let e : Int := if b * 2 ^ L ≤ a * 2 ^ M then (L : Int) - M
      else (L : Int) - M - 1
    let shift : Int := 52 - e
    let N := if 0 ≤ shift then a * 2 ^ shift.toNat else a
    let D := if 0 ≤ shift then b else b * 2 ^ (-shift).toNat
    let q := N / D
    let r := N % D
    let n := if 2 * r < D then q
      else if D < 2 * r then q + 1
      else if q % 2 = 0 then q else q + 1
    ⟨n, e - 52⟩

/-- Python `int(x)` on a non-negative double: truncation toward zero. -/
def Dyadic.toNatTrunc (x : Dyadic) : Nat :=
  if 0 ≤ x.e then x.m * 2 ^ x.e.toNat else x.m / 2 ^ (-x.e).toNat

/-- The exact rational value of a dyadic. -/
def Dyadic.toRat (x : Dyadic) : Rat :=
  if 0 ≤ x.e then (x.m * 2 ^ x.e.toNat : Nat)
  else (x.m : Rat) / (2 ^ (-x.e).toNat : Nat)

/-- The value of the Python float literal `1e-2`. -/
def doubleE2 : Dyadic := ratToDouble 1 100

/-- The value of the Python float literal `1e-3`. -/
def doubleE3 : Dyadic := ratToDouble 1 1000

/-- Keyword arguments of `REVS.read_inputs`, with their source defaults:
`adoption=90`, `rating=4800`, `capacity=20`, `initial_soc=0.2`,
`start_time=11`, `end_time=23`, `shift_time=6`, `seed=1234`. -/
structure InputKW where
  adoption : Nat
  rating : Nat
  capacity : Rat
  initial_soc : Rat
  start_time : Nat
  end_time : Nat
  shift_time : Nat
  seed : Nat
  deriving Repr, DecidableEq

/-- Default keyword arguments of `read_inputs`. -/
def inputKWDefaults : InputKW :=
  { adoption := 90, rating := 4800, capacity := 20, initial_soc := 1/5,
    start_time := 11, end_time := 23, shift_time := 6, seed := 1234 }

/-- The `save_home_data` dict built at the end of `read_inputs`. -/
structure SaveHomeData where
  ev_homes : List HomeId
  community : List HomeId
  deriving Repr, DecidableEq

/-- Method `REVS.read_inputs`: reads tariff, homes, network and community;
when the `ev_homes` argument is falsy (`None` or empty), seeds the sampler
and draws `int(adoption * 1e-2 * len(com))` homes from the community
without replacement — the size is computed in IEEE-754 double arithmetic
exactly as Python evaluates it, left to right: the adoption count is
converted to a double, multiplied by the double literal `1e-2`, the
rounded result multiplied by the double of the community size, and the
product truncated to an int; otherwise the supplied list is used
unchanged.  Then `get_homes_ev_param(all_homes, dist, ev_homes,
rating*1e-3, capacity, initial, start, end)` attaches the EV parameters,
with `rating*1e-3` likewise computed in double arithmetic. -/
def REVS.read_inputs (ext : Ext) (self : REVS)
    (regionID networkID : Option Nat) (tariffID : Option String)
    (ev_homes : Option (List HomeId)) (kw : InputKW) :
    Tariff × Homes × Network × SaveHomeData :=
  let tariff := self.read_tariff ext tariffID kw.shift_time
  let all_homes := self.read_homes ext regionID kw.shift_time
  let dist := self.read_network ext networkID
  let com := self.read_community ext networkID self.com
  let evs :=
    if optListFalsy ev_homes then
      let num_choice :=
        (fmul (fmul (intToDouble kw.adoption) doubleE2)
          (intToDouble com.length)).toNatTrunc
      ext.sample kw.seed com num_choice
    else ev_homes.getD []
  let homes := ext.get_homes_ev_param all_homes dist evs
    (fmul (intToDouble kw.rating) doubleE3).toRat
    kw.capacity kw.initial_soc kw.start_time kw.end_time
  (tariff, homes, dist, { ev_homes := evs, community := com })

/-- Keyword arguments shared by the solve entry points' result-saving block:
`ev_homes=None`, `adoption=90`, `rating=4800`, `seed=None`. -/
structure ResultKW where
  ev_homes : Option (List HomeId)
  adoption : Nat
  rating : Nat
  seed : Option Nat
  deriving Repr, DecidableEq

/-- Default saving keyword arguments. -/
def resultKWDefaults : ResultKW :=
  { ev_homes := none, adoption := 90, rating := 4800, seed := none }

/-- Python rendering of the optional seed inside the f-string (`None` prints
as "None"). -/
def seedStr : Option Nat → String
  | none => "None"
  | some n => toString n

/-- Output filename `f"adopt{adopt}-rating{rating}-seed{seed}.txt"`. -/
def resultFilename (adopt rating : Nat) (seed : Option Nat) : String :=
  "adopt" ++ toString adopt ++ "-rating" ++ toString rating ++
    "-seed" ++ seedStr seed ++ ".txt"

/-- The per-home loop of `get_individual_optimal`: for each home `h` in key
order, `solve_residence(tariff, homes[h], grb_dir)` is called and its
result unpacked into `Pres[h] = g_opt`, `Pev[h] = p_opt`, `soc[h] = s_opt`.
There is no exception handling: a solver failure propagates and aborts the
loop (embedded as `none`), losing the results already computed; the trace
records every solver call made up to and including the failing one. -/
def runHomes (ext : Ext) (tariff : Tariff) (grb : String) :
    Homes → Option (Dict × Dict × Dict) × List Effect
  | [] => (some ([], [], []), [])
  | (h, hd) :: rest =>
    match ext.solve_residence tariff hd grb with
    | none => (none, [Effect.callResidence tariff hd grb])
    | some v =>
      let r := runHomes ext tariff grb rest
      (r.1.map fun x => ((h, v.2.2) :: x.1, (h, v.1) :: x.2.1,
        (h, v.2.1) :: x.2.2),
       Effect.callResidence tariff hd grb :: r.2)

/-- Method `REVS.get_individual_optimal(self, tariff, homes, save=False,
**kwargs)`: runs the per-home loop, and when `save` is true serializes the
results with `combine_result` and writes them to
`out_dir/adopt{a}-rating{r}-seed{s}.txt` itself.  Returns
`(Pres, Pev, soc)` paired with the effect trace. -/
def REVS.get_individual_optimal (ext : Ext) (self : REVS)
    (tariff : Tariff) (homes : Homes) (save : Bool) (kw : ResultKW) :
    Option (Dict × Dict × Dict) × List Effect :=
  let out := runHomes ext tariff self.grb_dir homes
  match out.1 with
  | none => (none, out.2)
  | some r =>
    if save then
      let data := ext.combine_result r.1 r.2.1 r.2.2 kw.ev_homes
      (some r, out.2 ++ [Effect.fileWrite
        (self.out_dir ++ "/" ++ resultFilename kw.adoption kw.rating kw.seed)
        data])
    else (some r, out.2)

/-- Keyword arguments of `get_centralized_optimal` with their source
defaults: `v0=1.03`, `vmin=0.90`, `vmax=1.05` plus the saving keywords. -/
structure CentralKW where
  v0 : Rat
  vmin : Rat
  vmax : Rat
  ev_homes : Option (List HomeId)
  adoption : Nat
  rating : Nat
  seed : Option Nat
  deriving Repr, DecidableEq

/-- Default keyword arguments of `get_centralized_optimal`. -/
def centralKWDefaults : CentralKW :=
  { v0 := 103/100, vmin := 9/10, vmax := 21/20,
    ev_homes := none, adoption := 90, rating := 4800, seed := none }

/-- Method `REVS.get_centralized_optimal(self, tariff, homes, dist,
save=False, **kwargs)`: one call
`Pev, soc, Pres = solve_central(tariff, homes, dist, grb_dir, vset, vmin,
vmax)`, optional result saving, and return of `(Pres, Pev, soc)`. -/
def REVS.get_centralized_optimal (ext : Ext) (self : REVS)
    (tariff : Tariff) (homes : Homes) (dist : Network)
    (save : Bool) (kw : CentralKW) : (Dict × Dict × Dict) × List Effect :=
  let out := ext.solve_central tariff homes dist self.grb_dir
    kw.v0 kw.vmin kw.vmax
  let pev := out.1
  let soc := out.2.1
  let pres := out.2.2
  let tr := [Effect.callCentral tariff homes dist self.grb_dir
    kw.v0 kw.vmin kw.vmax]
  if save then
    let data := ext.combine_result pres pev soc kw.ev_homes
    ((pres, pev, soc), tr ++ [Effect.fileWrite
      (self.out_dir ++ "/" ++ resultFilename kw.adoption kw.rating kw.seed)
      data])
  else ((pres, pev, soc), tr)

/-- Keyword arguments of `get_distributed_optimal` with their source
defaults: `kappa=5.0`, `max_iterations=15`, `v0=1.03`, `vlow=0.95`,
`vhigh=1.05` plus the saving keywords. -/
structure DistKW where
  kappa : Rat
  max_iterations : Nat
  v0 : Rat
  vlow : Rat
  vhigh : Rat
  ev_homes : Option (List HomeId)
  adoption : Nat
  rating : Nat
  seed : Option Nat
  deriving Repr, DecidableEq

/-- Default keyword arguments of `get_distributed_optimal`. -/
def distKWDefaults : DistKW :=
  { kappa := 5, max_iterations := 15, v0 := 103/100, vlow := 19/20,
    vhigh := 21/20, ev_homes := none, adoption := 90, rating := 4800,
    seed := none }

/-- Method `REVS.get_distributed_optimal(self, tariff, homes, dist,
save=False, **kwargs)`: one call
`diff, Pres, Pev, soc = solve_ADMM(homes, dist, tariff, grb_dir, kappa,
iter_max, vset, vlow, vhigh)`; when `save` is true the residual `diff` is
passed to `combine_result` and written to the output file; the method
returns `(Pres, Pev, soc)` — the residual `diff` is not part of the return
value. -/
def REVS.get_distributed_optimal (ext : Ext) (self : REVS)
    (tariff : Tariff) (homes : Homes) (dist : Network)
    (save : Bool) (kw : DistKW) : (Dict × Dict × Dict) × List Effect :=
  let out := ext.solve_ADMM homes dist tariff self.grb_dir
    kw.kappa kw.max_iterations kw.v0 kw.vlow kw.vhigh
  let diff := out.1
  let pres := out.2.1
  let pev := out.2.2.1
  let soc := out.2.2.2
  let tr := [Effect.callADMM homes dist tariff self.grb_dir
    kw.kappa kw.max_iterations kw.v0 kw.vlow kw.vhigh]
  if save then
    let data := ext.combine_result_diff pres pev soc kw.ev_homes diff
    ((pres, pev, soc), tr ++ [Effect.fileWrite
      (self.out_dir ++ "/" ++ resultFilename kw.adoption kw.rating kw.seed)
      data])
  else ((pres, pev, soc), tr)

/-! Concrete fixtures used to instantiate the theorems below. -/

/-- A concrete collaborator record whose solvers always succeed with empty
schedules. -/
def trivialExt : Ext :=
  { GetTariff := fun _ _ _ => []
    GetHomeLoad := fun _ _ _ => []
    GetDistNet := fun _ _ => []
    GetCommunity := fun _ _ => []
    sample := fun _ com n => com.take n
    get_homes_ev_param := fun hs _ _ _ _ _ _ _ => hs
    combine_result := fun _ _ _ _ => ""
    combine_result_diff := fun _ _ _ _ _ => ""
    solve_residence := fun _ _ _ => some ([], [], [])
    solve_central := fun _ _ _ _ _ _ _ => ([], [], [])
    solve_ADMM := fun _ _ _ _ _ _ _ _ _ => (0, [], [], []) }

/-- A concrete instance state with a stored tariff identifier different from
the constant "DVP". -/
def selfC : REVS := mkREVS 1 2 3 "TAR" "individual" "data" "out" "grb" "fig"

/-- A concrete two-home mapping. -/
def homesC2 : Homes := [(1, [1]), (2, [2])]

/-! Shared helper lemmas about the per-home loop. -/

/-- The per-home loop yields a result exactly when the solver succeeds on
every home in the mapping. -/
theorem runHomes_isSome (ext : Ext) (tariff : Tariff) (grb : String)
    (hs : Homes) : (runHomes ext tariff grb hs).1.isSome =
      hs.all (fun p => (ext.solve_residence tariff p.2 grb).isSome) := by
  induction hs with
  | nil => rfl
  | cons p rest ih =>
    obtain ⟨h, hd⟩ := p
    cases hsolve : ext.solve_residence tariff hd grb with
    | none => simp [runHomes, hsolve]
    | some v => simp [runHomes, hsolve, ih]

/-- The per-home loop's trace holds no file-write effects. -/
theorem runHomes_no_writes (ext : Ext) (tariff : Tariff) (grb : String)
    (hs : Homes) :
    ((runHomes ext tariff grb hs).2.any Effect.isWrite) = false := by
  induction hs with
  | nil => rfl
  | cons p rest ih =>
    obtain ⟨h, hd⟩ := p
    cases hsolve : ext.solve_residence tariff hd grb with
    | none => simp [runHomes, hsolve, Effect.isWrite]
    | some v => simp [runHomes, hsolve, Effect.isWrite, ih]

/-- When the solver succeeds on every home, the per-home loop records exactly
one solver call per home in key order, and each of the three result
dictionaries has exactly the input keys in order. -/
theorem runHomes_ok (ext : Ext) (tariff : Tariff) (grb : String)
    (hs : Homes)
    (hok : hs.all (fun p => (ext.solve_residence tariff p.2 grb).isSome) = true) :
    (runHomes ext tariff grb hs).2 =
      hs.map (fun p => Effect.callResidence tariff p.2 grb) ∧
    ∃ r, (runHomes ext tariff grb hs).1 = some r ∧
      r.1.map Prod.fst = hs.map Prod.fst ∧
      r.2.1.map Prod.fst = hs.map Prod.fst ∧
      r.2.2.map Prod.fst = hs.map Prod.fst := by
  induction hs with
  | nil => exact ⟨rfl, ⟨([], [], []), rfl, rfl, rfl, rfl⟩⟩
  | cons p rest ih =>
    obtain ⟨h, hd⟩ := p
    simp only [List.all_cons, Bool.and_eq_true] at hok
    obtain ⟨hv, hrest⟩ := hok
    obtain ⟨v, hsolve⟩ := Option.isSome_iff_exists.mp hv
    obtain ⟨htr, r, hr, k1, k2, k3⟩ := ih hrest
    refine ⟨?_, ⟨((h, v.2.2) :: r.1, (h, v.1) :: r.2.1, (h, v.2.1) :: r.2.2),
      ?_, ?_, ?_, ?_⟩⟩ <;>
      simp [runHomes, hsolve, htr, hr, k1, k2, k3]

/-- Filtering a trace of pure solver calls for solver calls is the
identity. -/
theorem filter_residence_map (tariff : Tariff) (grb : String) (hs : Homes) :
    ((hs.map fun p => Effect.callResidence tariff p.2 grb).filter
      Effect.isResidenceCall) =
      hs.map fun p => Effect.callResidence tariff p.2 grb := by
  induction hs with
  | nil => rfl
  | cons p rest ih => simp [Effect.isResidenceCall, ih]

/-! Claim theorems. -/

/-- A collaborator whose ADMM solver reports residual 42 with fixed
schedules. -/
def extDiff42 : Ext :=
  { trivialExt with
    solve_ADMM := fun _ _ _ _ _ _ _ _ _ => (42, [(1, [1])], [(1, [2])], [(1, [3])]) }

/-- A collaborator identical to `extDiff42` except that its ADMM solver
reports residual 7. -/
def extDiff7 : Ext :=
  { trivialExt with
    solve_ADMM := fun _ _ _ _ _ _ _ _ _ => (7, [(1, [1])], [(1, [2])], [(1, [3])]) }

/-- Claim C1, counterexample: the convergence residual computed by the
coordination loop is not returned to the caller.  Two ADMM solvers that
differ only in the residual they report (42 versus 7) make
`get_distributed_optimal` produce identical return values, so the caller
cannot observe the residual. -/
theorem c1_residual_not_returned :
    (extDiff42.solve_ADMM [] [] [] "" 0 0 0 0 0).1 = 42 ∧
    (extDiff7.solve_ADMM [] [] [] "" 0 0 0 0 0).1 = 7 ∧
    REVS.get_distributed_optimal extDiff42 selfC [] [] [] false
        distKWDefaults =
      REVS.get_distributed_optimal extDiff7 selfC [] [] [] false
        distKWDefaults :=
  ⟨rfl, rfl, rfl⟩

/-- Claim C1 (amended): `get_distributed_optimal` returns only the
residual-load, charging and SOC schedules from `solve_ADMM`; the final
convergence residual (the first component of the solver's output) is
dropped from the return value, whatever `save` is. -/
theorem c1_residual_dropped (ext : Ext) (self : REVS) (tariff : Tariff)
    (homes : Homes) (dist : Network) (save : Bool) (kw : DistKW) :
    (REVS.get_distributed_optimal ext self tariff homes dist save kw).1 =
      ((ext.solve_ADMM homes dist tariff self.grb_dir kw.kappa
          kw.max_iterations kw.v0 kw.vlow kw.vhigh).2.1,
       (ext.solve_ADMM homes dist tariff self.grb_dir kw.kappa
          kw.max_iterations kw.v0 kw.vlow kw.vhigh).2.2.1,
       (ext.solve_ADMM homes dist tariff self.grb_dir kw.kappa
          kw.max_iterations kw.v0 kw.vlow kw.vhigh).2.2.2) := by
  cases save <;> rfl

/-- A distributed configuration whose voltage band is invalid:
`vlow = 1.05 ≥ 0.95 = vhigh`. -/
def kwBad : DistKW := { distKWDefaults with vlow := 21/20, vhigh := 19/20 }

/-- Claim C2, counterexample: an invalid configuration (here
`vlow ≥ vhigh`) is not rejected before solver invocation — the ADMM solver
is invoked with exactly the invalid bounds. -/
theorem c2_invalid_config_reaches_solver :
    kwBad.vhigh < kwBad.vlow ∧
    (REVS.get_distributed_optimal trivialExt selfC [] [] [] false kwBad).2 =
      [Effect.callADMM [] [] [] selfC.grb_dir kwBad.kappa
        kwBad.max_iterations kwBad.v0 kwBad.vlow kwBad.vhigh] :=
  ⟨by show (19 : Rat)/20 < 21/20; norm_num, rfl⟩

/-- Claim C2 (amended): no configuration validation occurs anywhere — for
every configuration, valid or not, the first effect of
`get_distributed_optimal` is the ADMM solver invocation with exactly the
given parameters. -/
theorem c2_no_config_validation (ext : Ext) (self : REVS) (tariff : Tariff)
    (homes : Homes) (dist : Network) (save : Bool) (kw : DistKW) :
    (REVS.get_distributed_optimal ext self tariff homes dist save kw).2.head? =
      some (Effect.callADMM homes dist tariff self.grb_dir kw.kappa
        kw.max_iterations kw.v0 kw.vlow kw.vhigh) := by
  cases save <;> rfl

/-- A collaborator whose per-home solver fails exactly on the payload of
home 2. -/
def extFail2 : Ext :=
  { trivialExt with
    solve_residence := fun _ hd _ =>
      if hd = [2] then none else some ([], [], []) }

/-- Claim C3, counterexample: with two homes of which the solver handles
the first and fails on the second (some but not all homes fail), the run is
aborted: no result at all is returned — there are no partial results for
the successful home and no failed-home list. -/
theorem c3_partial_failure_aborts :
    (extFail2.solve_residence [] [1] selfC.grb_dir).isSome = true ∧
    (extFail2.solve_residence [] [2] selfC.grb_dir).isSome = false ∧
    (REVS.get_individual_optimal extFail2 selfC [] homesC2 false
      resultKWDefaults).1 = none :=
  ⟨rfl, rfl, rfl⟩

/-- Claim C3 (amended): a per-home solver failure aborts the whole run —
`get_individual_optimal` yields a result exactly when the solver succeeds
on every home, and nothing (neither partial results nor a failed-home
list) is returned otherwise. -/
theorem c3_failure_aborts_run (ext : Ext) (self : REVS) (tariff : Tariff)
    (homes : Homes) (save : Bool) (kw : ResultKW) :
    (REVS.get_individual_optimal ext self tariff homes save kw).1.isSome =
      homes.all
        (fun p => (ext.solve_residence tariff p.2 self.grb_dir).isSome) := by
  rw [← runHomes_isSome ext tariff self.grb_dir homes]
  unfold REVS.get_individual_optimal
  cases hr : (runHomes ext tariff self.grb_dir homes).1 with
  | none => simp [hr]
  | some r => cases save <;> simp [hr]

/-- Claim C4, counterexample: with `save=True`, the solve entry point
itself writes the combined results to a file — the core does perform file
I/O on that input. -/
theorem c4_save_true_writes :
    ((REVS.get_individual_optimal trivialExt selfC [] homesC2 true
      resultKWDefaults).2.any Effect.isWrite) = true :=
  rfl

/-- Claim C4 (amended): with `save=False` (the default) the three solve
entry points perform no file writes — results are only returned; with
`save=True` each writes the serialized results to a file under `out_dir`
itself. -/
theorem c4_no_writes_without_save :
    (∀ (ext : Ext) (self : REVS) (tariff : Tariff) (homes : Homes)
      (kw : ResultKW),
      ((REVS.get_individual_optimal ext self tariff homes false kw).2.any
        Effect.isWrite) = false) ∧
    (∀ (ext : Ext) (self : REVS) (tariff : Tariff) (homes : Homes)
      (dist : Network) (kw : CentralKW),
      ((REVS.get_centralized_optimal ext self tariff homes dist false kw).2.any
        Effect.isWrite) = false) ∧
    (∀ (ext : Ext) (self : REVS) (tariff : Tariff) (homes : Homes)
      (dist : Network) (kw : DistKW),
      ((REVS.get_distributed_optimal ext self tariff homes dist false kw).2.any
        Effect.isWrite) = false) := by
  refine ⟨fun ext self tariff homes kw => ?_,
    fun ext self tariff homes dist kw => rfl,
    fun ext self tariff homes dist kw => rfl⟩
  have hw := runHomes_no_writes ext tariff self.grb_dir homes
  unfold REVS.get_individual_optimal
  cases hr : (runHomes ext tariff self.grb_dir homes).1 with
  | none => simpa [hr] using hw
  | some r => simpa [hr] using hw

/-- A collaborator whose community has exactly 100 homes and whose sampler
returns the first `n` requested homes. -/
def sampleExt : Ext :=
  { trivialExt with GetCommunity := fun _ _ => List.range 100 }

/-- A `read_inputs` configuration with adoption percentage 29. -/
def kw29 : InputKW := { inputKWDefaults with adoption := 29 }

/-- Claim C5, counterexample: at adoption percentage 29 over a 100-home
community, the sampled EV-adoption set has 28 homes — Python evaluates
`int(29 * 1e-2 * 100)` in double arithmetic as `int(28.999999999999996) =
28` — not the 29 homes that the claimed exact integer part
`int(29/100 * 100)` gives. -/
theorem c5_float_size_counterexample :
    (sampleExt.GetCommunity (selfC.data_path ++ "/" ++ toString selfC.netID
      ++ "-com.txt") selfC.com).length = 100 ∧
    (REVS.read_inputs sampleExt selfC none none none none
      kw29).2.2.2.ev_homes.length = 28 ∧
    (28 : Nat) ≠ kw29.adoption * 100 / 100 :=
  ⟨rfl, rfl, by decide⟩

/-- Claim C5 (amended): when no EV-home set is supplied, `read_inputs`
draws the EV-adoption set with the seeded sampler over the community, of
size `int(adoption * 1e-2 * |community|)` evaluated in IEEE-754 double
arithmetic — which can fall below the exact integer part of
`adoption/100 * |community|`, as at adoption 29 over 100 homes; when an
explicit non-empty set is supplied it is used unchanged and the sampler is
never consulted (the output is invariant under replacing the sampling
function). -/
theorem c5_ev_adoption_sampling (ext : Ext) (self : REVS)
    (regionID networkID : Option Nat) (tariffID : Option String)
    (kw : InputKW) (l : List HomeId) (hl : l ≠ []) :
    ((self.read_inputs ext regionID networkID tariffID none kw).2.2.2.ev_homes =
      ext.sample kw.seed (self.read_community ext networkID self.com)
        ((fmul (fmul (intToDouble kw.adoption) doubleE2)
          (intToDouble
            (self.read_community ext networkID self.com).length)).toNatTrunc)) ∧
    (self.read_inputs ext regionID networkID tariffID (some l) kw).2.2.2.ev_homes
      = l ∧
    (∀ s2 : Nat → List HomeId → Nat → List HomeId,
      REVS.read_inputs { ext with sample := s2 } self regionID networkID
          tariffID (some l) kw =
        self.read_inputs ext regionID networkID tariffID (some l) kw) := by
  obtain ⟨a, t, rfl⟩ := List.exists_cons_of_ne_nil hl
  refine ⟨rfl, rfl, fun s2 => rfl⟩

/-- Claim C5 witness: an explicit non-empty EV-home set survives
`read_inputs` unchanged. -/
theorem c5_witness :
    (REVS.read_inputs trivialExt selfC none none none (some [5])
      inputKWDefaults).2.2.2.ev_homes = [5] :=
  (c5_ev_adoption_sampling trivialExt selfC none none none inputKWDefaults
    [5] (by decide)).2.1

/-- A collaborator whose per-home solver fails exactly on the payload of
home 1. -/
def extFail1 : Ext :=
  { trivialExt with
    solve_residence := fun _ hd _ =>
      if hd = [1] then none else some ([], [], []) }

/-- Claim C6, counterexample: on a two-home mapping whose first solve
fails, the individual strategy invokes the solver once in total — the
second home is never reached — so not exactly once per home key, and it
returns no dictionaries at all, so the result key sets do not match the
input keys. -/
theorem c6_failure_skips_homes :
    homesC2.length = 2 ∧
    ((REVS.get_individual_optimal extFail1 selfC [] homesC2 false
        resultKWDefaults).2.filter Effect.isResidenceCall).length = 1 ∧
    (REVS.get_individual_optimal extFail1 selfC [] homesC2 false
      resultKWDefaults).1 = none :=
  ⟨rfl, rfl, rfl⟩

/-- Claim C6 (amended): when the solver succeeds on every home, the
individual strategy invokes the per-home solver exactly once per home key
in key order — each call carries only the tariff, the home payload and the
Gurobi directory, so no network state or voltage feedback is passed and
there is no iteration — and the three returned dictionaries carry exactly
the home keys of the input mapping, in order; when some home's solve
fails, the run aborts instead (see C3) and later homes are not solved. -/
theorem c6_individual_once_per_home (ext : Ext) (self : REVS)
    (tariff : Tariff) (homes : Homes) (save : Bool) (kw : ResultKW)
    (hok : homes.all
      (fun p => (ext.solve_residence tariff p.2 self.grb_dir).isSome) = true) :
    ((REVS.get_individual_optimal ext self tariff homes save kw).2.filter
        Effect.isResidenceCall) =
      homes.map (fun p => Effect.callResidence tariff p.2 self.grb_dir) ∧
    ∃ r, (REVS.get_individual_optimal ext self tariff homes save kw).1 =
        some r ∧
      r.1.map Prod.fst = homes.map Prod.fst ∧
      r.2.1.map Prod.fst = homes.map Prod.fst ∧
      r.2.2.map Prod.fst = homes.map Prod.fst := by
  obtain ⟨htr, r, hr, k1, k2, k3⟩ :=
    runHomes_ok ext tariff self.grb_dir homes hok
  have hfil := filter_residence_map tariff self.grb_dir homes
  unfold REVS.get_individual_optimal
  refine ⟨?_, r, ?_, k1, k2, k3⟩ <;> cases save <;>
    simp [hr, htr, hfil, Effect.isResidenceCall, List.filter_append]

/-- Claim C6 witness: on the concrete two-home mapping with an
always-succeeding solver, the recorded solver calls are exactly one per
home. -/
theorem c6_witness :
    ((REVS.get_individual_optimal trivialExt selfC [] homesC2 false
        resultKWDefaults).2.filter Effect.isResidenceCall) =
      homesC2.map (fun p => Effect.callResidence [] p.2 selfC.grb_dir) :=
  (c6_individual_once_per_home trivialExt selfC [] homesC2 false
    resultKWDefaults (by decide)).1

/-- Claim C7: the centralized strategy records exactly one solver call —
`solve_central` with the full home set, the network, and the voltage
bounds `vset`/`vmin`/`vmax` from the configuration (defaults 1.03, 0.90,
1.05) — with no dual variables and no iteration, and returns the triple
`(Pres, Pev, soc)` reassembled from the solver's `(Pev, soc, Pres)`
output, the same shape as the other strategies. -/
theorem c7_centralized_single_call (ext : Ext) (self : REVS)
    (tariff : Tariff) (homes : Homes) (dist : Network) (save : Bool)
    (kw : CentralKW) :
    ((REVS.get_centralized_optimal ext self tariff homes dist save kw).2.filter
        Effect.isCentralCall) =
      [Effect.callCentral tariff homes dist self.grb_dir kw.v0 kw.vmin
        kw.vmax] ∧
    (REVS.get_centralized_optimal ext self tariff homes dist save kw).1 =
      ((ext.solve_central tariff homes dist self.grb_dir kw.v0 kw.vmin
          kw.vmax).2.2,
       (ext.solve_central tariff homes dist self.grb_dir kw.v0 kw.vmin
          kw.vmax).1,
       (ext.solve_central tariff homes dist self.grb_dir kw.v0 kw.vmin
          kw.vmax).2.1) ∧
    centralKWDefaults.v0 = 103/100 ∧ centralKWDefaults.vmin = 9/10 ∧
      centralKWDefaults.vmax = 21/20 := by
  refine ⟨?_, ?_, rfl, rfl, rfl⟩ <;> cases save <;>
    simp [REVS.get_centralized_optimal, Effect.isCentralCall,
      Effect.isWrite, List.filter_append]

/-- Claim C8: the individual strategy is deterministic — two collaborator
records whose per-home solver and serializer behave identically produce
identical results and traces on identical tariff/home inputs; re-running
with the same inputs yields the same schedules. -/
theorem c8_individual_deterministic (e1 e2 : Ext) (self : REVS)
    (tariff : Tariff) (homes : Homes) (save : Bool) (kw : ResultKW)
    (hs : e1.solve_residence = e2.solve_residence)
    (hc : e1.combine_result = e2.combine_result) :
    REVS.get_individual_optimal e1 self tariff homes save kw =
      REVS.get_individual_optimal e2 self tariff homes save kw := by
  have hrun : runHomes e1 tariff self.grb_dir homes =
      runHomes e2 tariff self.grb_dir homes := by
    induction homes with
    | nil => rfl
    | cons p rest ih => simp [runHomes, hs, ih]
  simp [REVS.get_individual_optimal, hrun, hc]

/-- A collaborator identical to `trivialExt` in its solver and serializer
but with a different tariff loader. -/
def extAlt : Ext := { trivialExt with GetTariff := fun _ _ _ => [1] }

/-- Claim C8 witness: two collaborator records with the same solver give
the same individual-strategy result on the concrete two-home mapping. -/
theorem c8_witness :
    REVS.get_individual_optimal trivialExt selfC [] homesC2 false
        resultKWDefaults =
      REVS.get_individual_optimal extAlt selfC [] homesC2 false
        resultKWDefaults :=
  c8_individual_deterministic trivialExt extAlt selfC [] homesC2 false
    resultKWDefaults rfl rfl

/-- Claim C9: supplying an explicitly empty EV-home collection to
`read_inputs` is indistinguishable from supplying none at all — in both
cases `not ev_homes` holds, so the seeded sample is drawn and replaces the
caller's empty choice. -/
theorem c9_empty_ev_homes_resampled (ext : Ext) (self : REVS)
    (regionID networkID : Option Nat) (tariffID : Option String)
    (kw : InputKW) :
    REVS.read_inputs ext self regionID networkID tariffID (some []) kw =
      REVS.read_inputs ext self regionID networkID tariffID none kw :=
  rfl

/-- Claim C10: for an instance whose stored tariff identifier differs from
"DVP", `read_tariff` without an explicit argument uses the constant "DVP"
(not the stored identifier), whereas `read_homes` and `read_network`
without explicit arguments fall back to the stored region and network
identifiers. -/
theorem c10_default_argument_fallbacks (ext : Ext) (self : REVS)
    (shift : Nat) (h : self.tariffID ≠ "DVP") :
    REVS.read_tariff ext self none shift =
      ext.GetTariff self.data_path "DVP" shift ∧
    REVS.read_homes ext self none shift =
      ext.GetHomeLoad self.data_path self.regID shift ∧
    REVS.read_network ext self none =
      ext.GetDistNet self.data_path self.netID :=
  ⟨rfl, rfl, rfl⟩

/-- Claim C10 witness: the concrete instance stores tariff identifier
"TAR", yet `read_tariff` with no argument loads "DVP". -/
theorem c10_witness :
    REVS.read_tariff trivialExt selfC none 6 =
      trivialExt.GetTariff selfC.data_path "DVP" 6 :=
  (c10_default_argument_fallbacks trivialExt selfC 6 (by decide)).1

end REVSModel
